import Mathlib

/-!
Shallow embedding of the RWA lending contract.

The embedding follows src/src/contract.rs line by line: the five entry
points (instantiate, execute_lend_token, execute_borrow_token,
execute_return_token, execute_withdraw_collateral) are translated into
Lean functions over an explicit contract state.  Storage writes are
threaded through the state even on error paths, so that the handlers'
own write behaviour (as opposed to the host's call-level rollback) is
visible in the model.  Addresses are strings, amounts are naturals and
times/heights are naturals.
-/

namespace Lending

/-- Addresses (cosmwasm Addr) are modelled as plain strings; the empty
string is the sentinel identity the contract uses for "no borrower". -/
abbrev Addr := String

/-- A (denomination, amount) pair, cosmwasm Coin with a Nat amount. -/
structure Coin where
  denom : String
  amount : Nat
deriving DecidableEq

/-- Block information supplied by the host: height and time. -/
structure BlockInfo where
  height : Nat
  time : Nat
deriving DecidableEq

/-- The host environment passed to every entry point. -/
structure Env where
  block : BlockInfo
deriving DecidableEq

/-- cw_utils Expiration: a height threshold, a time threshold, or never. -/
inductive Expiration where
  | atHeight (h : Nat)
  | atTime (t : Nat)
  | never
deriving DecidableEq

/-- cw_utils Expiration.is_expired: expired once the block reaches the
threshold. -/
def Expiration.is_expired : Expiration → BlockInfo → Bool
  | .atHeight h, b => h ≤ b.height
  | .atTime t, b => t ≤ b.time
  | .never, _ => false

/-- Modelled from the spec: the Config record of the missing
src/state.rs — arbiter, recipient, source (deployer) and an optional
expiration, exactly the fields built in instantiate. -/
structure Config where
  arbiter : Addr
  recipient : Addr
  source : Addr
  expiration : Option Expiration
deriving DecidableEq

/-- Modelled from the spec: the Loan record of the missing src/state.rs,
with the ten fields listed in the spec's data model and used by
contract.rs. -/
structure Loan where
  lender : Addr
  borrower : Addr
  asset_address : Addr
  duration : Nat
  collateral_amount : List Coin
  daily_fee_amount : List Coin
  max_rent_days : Nat
  ipfs_cid : String
  start_time : Nat
  is_active : Bool
deriving DecidableEq

/-- The closed error taxonomy of src/error.rs, plus the Expired variant
referenced by instantiate (commented out in error.rs) and a Std variant
for propagated host/storage errors. -/
inductive ContractError where
  | Unauthorized
  | LoanNotFound
  | LoanAlreadyActive
  | InvalidDuration
  | InvalidAmounts
  | InvalidMaxRentDays
  | InvalidLoan (reason : String)
  | Expired (expiration : Expiration)
  | Std (msg : String)
deriving DecidableEq

/-- The cw20 token-contract message constructed by Borrow. -/
inductive Cw20ExecuteMsg where
  | Transfer (recipient : String) (amount : List Coin)
deriving DecidableEq

/-- Outbound instructions returned to the host: a wasm execute call on a
token contract, or a native bank send. -/
inductive CosmosMsg where
  | wasmExecute (contract_addr : String) (msg : Cw20ExecuteMsg) (funds : List Coin)
  | bankSend (to_address : String) (amount : List Coin)
deriving DecidableEq

/-- A response observability attribute (key, value). -/
structure Attribute where
  key : String
  value : String
deriving DecidableEq

/-- The response returned by an entry point: outbound messages and
attributes. -/
structure Response where
  messages : List CosmosMsg
  attributes : List Attribute
deriving DecidableEq

/-- Response::default(): no messages, no attributes. -/
def Response.default : Response := ⟨[], []⟩

/-- Persisted contract storage: the LOANS map (an association list keyed
by asset address), the CONFIG singleton, and the cw2 contract-version
metadata item. -/
structure ContractState where
  loans : List (Addr × Loan)
  config : Option Config
  contract_version : Option (String × String)
deriving DecidableEq

/-- LOANS.may_load: first binding for the key, if any. -/
def loadLoan : List (Addr × Loan) → Addr → Option Loan
  | [], _ => none
  | (k, l) :: rest, a => if k = a then some l else loadLoan rest a

/-- LOANS.save: replace the binding for the key, or append it. -/
def saveLoan : List (Addr × Loan) → Addr → Loan → List (Addr × Loan)
  | [], a, l => [(a, l)]
  | (k, l0) :: rest, a, l =>
      if k = a then (a, l) :: rest else (k, l0) :: saveLoan rest a l

/-- deps.api.addr_validate: rejects the empty string, a shallow model of
bech32 validation; every other string stands for a valid address. -/
def addr_validate (s : String) : Except ContractError Addr :=
  if s = "" then .error (.Std "invalid address") else .ok s

/-- The InstantiateMsg of src/msg.rs (arbiter, recipient, expiration). -/
structure InstantiateMsg where
  arbiter : String
  recipient : String
  expiration : Option Expiration
deriving DecidableEq

/-- The four execute actions dispatched in contract.rs (msg.rs omits
the LendToken variant, but the execute dispatcher matches on it). -/
inductive ExecuteMsg where
  | LendToken (asset_address : Addr) (duration : Nat)
      (collateral_amount : List Coin) (daily_fee_amount : List Coin)
      (max_rent_days : Nat) (ipfs_cid : String)
  | BorrowToken (asset_address : Addr)
  | ReturnToken (asset_address : Addr)
  | WithdrawCollateral (amount : List Coin)
deriving DecidableEq

def CONTRACT_NAME : String := "RWA Lending and Borrowing Contract"

/-- CARGO_PKG_VERSION; the concrete value is irrelevant to the claims. -/
def CONTRACT_VERSION : String := "0.1.0"

/-- cw2 set_contract_version: writes the version metadata item. -/
def set_contract_version (st : ContractState) (name version : String) :
    ContractState :=
  { st with contract_version := some (name, version) }

/-- instantiate, in source order: validate the two addresses while
building the Config, write the contract-version metadata, then fail if
the expiration is already expired, else save the Config. -/
def instantiate (st : ContractState) (env : Env) (sender : Addr)
    (msg : InstantiateMsg) : Except ContractError Response × ContractState :=
  match addr_validate msg.arbiter with
  | .error e => (.error e, st)
  | .ok arbiter =>
    match addr_validate msg.recipient with
    | .error e => (.error e, st)
    | .ok recipient =>
      let config : Config :=
        { arbiter := arbiter, recipient := recipient,
          source := sender, expiration := msg.expiration }
      let st1 := set_contract_version st CONTRACT_NAME CONTRACT_VERSION
      match msg.expiration with
      | some expiration =>
        if expiration.is_expired env.block then
          (.error (.Expired expiration), st1)
        else
          (.ok Response.default, { st1 with config := some config })
      | none => (.ok Response.default, { st1 with config := some config })

/-- execute_lend_token: load the record, check lender, sentinel
borrower, duration, both amount lists, max rent days in that order, then
save the refreshed record.  The source's updated_loan struct literal
lists every field but is_active (a slip in the source, which would not
compile as written); the only consistent reading, and the one every
other handler follows, carries is_active over unchanged. -/
def execute_lend_token (st : ContractState) (_env : Env) (sender : Addr)
    (asset_address : Addr) (duration : Nat)
    (collateral_amount daily_fee_amount : List Coin)
    (max_rent_days : Nat) (ipfs_cid : String) :
    Except ContractError Response × ContractState :=
  match loadLoan st.loans asset_address with
  | none => (.error .LoanNotFound, st)
  | some loan =>
    if loan.lender ≠ sender then (.error .Unauthorized, st)
    else if loan.borrower ≠ "" then (.error .LoanAlreadyActive, st)
    else if duration = 0 then (.error .InvalidDuration, st)
    else if collateral_amount.isEmpty || daily_fee_amount.isEmpty then
      (.error .InvalidAmounts, st)
    else if max_rent_days = 0 then (.error .InvalidMaxRentDays, st)
    else
      let updated_loan : Loan :=
        { lender := loan.lender, borrower := loan.borrower,
          asset_address := loan.asset_address, duration := duration,
          collateral_amount := collateral_amount,
          daily_fee_amount := daily_fee_amount,
          max_rent_days := max_rent_days, ipfs_cid := ipfs_cid,
          start_time := loan.start_time, is_active := loan.is_active }
      (.ok Response.default,
       { st with loans := saveLoan st.loans asset_address updated_loan })

/-- execute_borrow_token: unchecked load, then is_active, not-the-lender
and sentinel-borrower checks; on success emit one cw20 Transfer call on
the asset contract (collateral to the lender) and save the record with
borrower set to the caller. -/
def execute_borrow_token (st : ContractState) (_env : Env) (sender : Addr)
    (asset_address : Addr) : Except ContractError Response × ContractState :=
  match loadLoan st.loans asset_address with
  | none => (.error (.Std "loan not found"), st)
  | some loan =>
    if loan.is_active = false then
      (.error (.InvalidLoan "Loan is not active"), st)
    else if sender = loan.lender then (.error .Unauthorized, st)
    else if loan.borrower ≠ "" then
      (.error (.InvalidLoan "Asset is already borrowed"), st)
    else
      let msg := Cw20ExecuteMsg.Transfer loan.lender loan.collateral_amount
      let execute_msg := CosmosMsg.wasmExecute loan.asset_address msg []
      let response : Response := ⟨[execute_msg], []⟩
      let updated_loan : Loan := { loan with borrower := sender }
      (.ok response,
       { st with loans := saveLoan st.loans asset_address updated_loan })

/-- execute_return_token: unchecked load, then is_active, caller-is-the-
borrower and expiry checks; on success save the record with is_active
cleared.  The expiry test is the source's env.block.time strictly
greater than start_time + duration. -/
def execute_return_token (st : ContractState) (env : Env) (sender : Addr)
    (asset_address : Addr) : Except ContractError Response × ContractState :=
  match loadLoan st.loans asset_address with
  | none => (.error (.Std "loan not found"), st)
  | some loan =>
    if loan.is_active = false then (.error .LoanNotFound, st)
    else if sender ≠ loan.borrower then (.error .Unauthorized, st)
    else if loan.start_time + loan.duration < env.block.time then
      (.error .LoanNotFound, st)
    else
      let updated_loan : Loan := { loan with is_active := false }
      (.ok Response.default,
       { st with loans := saveLoan st.loans asset_address updated_loan })

/-- execute_withdraw_collateral: only Config.source may call; on success
emit one bank send of the requested amount to the caller, with the two
observability attributes.  No storage write. -/
def execute_withdraw_collateral (st : ContractState) (_env : Env)
    (sender : Addr) (amount : List Coin) :
    Except ContractError Response × ContractState :=
  match st.config with
  | none => (.error (.Std "config not found"), st)
  | some config =>
    if sender ≠ config.source then (.error .Unauthorized, st)
    else
      let recipient := sender
      let response : Response :=
        ⟨[CosmosMsg.bankSend recipient amount],
         [⟨"action", "withdraw_collateral"⟩, ⟨"recipient", recipient⟩]⟩
      (.ok response, st)

/-- The execute dispatcher of contract.rs. -/
def execute (st : ContractState) (env : Env) (sender : Addr) :
    ExecuteMsg → Except ContractError Response × ContractState
  | .LendToken a d c f m cid => execute_lend_token st env sender a d c f m cid
  | .BorrowToken a => execute_borrow_token st env sender a
  | .ReturnToken a => execute_return_token st env sender a
  | .WithdrawCollateral amount => execute_withdraw_collateral st env sender amount

/-! Helper lemmas about the loan registry. -/

/-- Reading back through a save: the saved key returns the saved record,
every other key is untouched. -/
theorem loadLoan_saveLoan (s : List (Addr × Loan)) (a q : Addr) (l : Loan) :
    loadLoan (saveLoan s a l) q = if a = q then some l else loadLoan s q := by
  induction s with
  | nil => simp [saveLoan, loadLoan]
  | cons p rest ih =>
    obtain ⟨k, l0⟩ := p
    by_cases hka : k = a
    · by_cases haq : a = q
      · simp [saveLoan, loadLoan, hka, haq]
      · have hkq : ¬k = q := fun h => haq (hka ▸ h)
        simp [saveLoan, loadLoan, hka, haq, hkq]
    · by_cases hkq : k = q
      · have haq : ¬a = q := fun h => hka (hkq.trans h.symm)
        have hqa : ¬q = a := fun h => hka (hkq.trans h)
        simp [saveLoan, loadLoan, hka, hkq, haq, hqa]
      · simp [saveLoan, loadLoan, hka, hkq, ih]

/-! Concrete scenario data, shared by several witnesses: the deployment
of the spec's scenario, Config with source A and a Loan for asset X with
lender A, sentinel borrower, duration 10, collateral 100 usd, daily fee
1 usd, max rent days 5, listed active. -/

def cfgA : Config := ⟨"A", "A", "A", none⟩

def loanX : Loan :=
  { lender := "A", borrower := "", asset_address := "X", duration := 10,
    collateral_amount := [⟨"usd", 100⟩], daily_fee_amount := [⟨"usd", 1⟩],
    max_rent_days := 5, ipfs_cid := "", start_time := 0, is_active := true }

def st1 : ContractState := ⟨[("X", loanX)], some cfgA, none⟩

def env0 : Env := ⟨⟨0, 0⟩⟩

/-- C1: In the scenario state, Borrow of X called by B succeeds, emits
one cw20 Transfer of 100 usd to A addressed to asset X, and stores
borrower B; a subsequent Borrow of X by C fails with InvalidLoan saying
the asset is already borrowed. -/
theorem C1_borrow_scenario :
    (execute_borrow_token st1 env0 "B" "X").1 =
      .ok ⟨[.wasmExecute "X" (.Transfer "A" [⟨"usd", 100⟩]) []], []⟩ ∧
    loadLoan (execute_borrow_token st1 env0 "B" "X").2.loans "X" =
      some { loanX with borrower := "B" } ∧
    (execute_borrow_token (execute_borrow_token st1 env0 "B" "X").2
        env0 "C" "X").1 =
      .error (.InvalidLoan "Asset is already borrowed") :=
  ⟨rfl, rfl, rfl⟩

/-- C2: Lend checks its preconditions in source order with first failure
winning: missing record gives LoanNotFound; then caller not the lender
gives Unauthorized regardless of every other input; then a non-sentinel
borrower gives LoanAlreadyActive; then zero duration gives
InvalidDuration; then an empty amount list gives InvalidAmounts; then
zero max rent days gives InvalidMaxRentDays. -/
theorem C2_lend_check_order (st : ContractState) (env : Env) (sender : Addr)
    (asset : Addr) (d : Nat) (c f : List Coin) (m : Nat) (cid : String) :
    (loadLoan st.loans asset = none →
      (execute_lend_token st env sender asset d c f m cid).1 =
        .error .LoanNotFound) ∧
    (∀ loan, loadLoan st.loans asset = some loan → loan.lender ≠ sender →
      (execute_lend_token st env sender asset d c f m cid).1 =
        .error .Unauthorized) ∧
    (∀ loan, loadLoan st.loans asset = some loan → loan.lender = sender →
      loan.borrower ≠ "" →
      (execute_lend_token st env sender asset d c f m cid).1 =
        .error .LoanAlreadyActive) ∧
    (∀ loan, loadLoan st.loans asset = some loan → loan.lender = sender →
      loan.borrower = "" → d = 0 →
      (execute_lend_token st env sender asset d c f m cid).1 =
        .error .InvalidDuration) ∧
    (∀ loan, loadLoan st.loans asset = some loan → loan.lender = sender →
      loan.borrower = "" → d ≠ 0 → (c = [] ∨ f = []) →
      (execute_lend_token st env sender asset d c f m cid).1 =
        .error .InvalidAmounts) ∧
    (∀ loan, loadLoan st.loans asset = some loan → loan.lender = sender →
      loan.borrower = "" → d ≠ 0 → c ≠ [] → f ≠ [] → m = 0 →
      (execute_lend_token st env sender asset d c f m cid).1 =
        .error .InvalidMaxRentDays) := by
  refine ⟨?_, ?_, ?_, ?_, ?_, ?_⟩
  · intro h
    simp [execute_lend_token, h]
  · intro loan hload hl
    simp [execute_lend_token, hload, hl]
  · intro loan hload hl hb
    simp [execute_lend_token, hload, hl, hb]
  · intro loan hload hl hb hd
    simp [execute_lend_token, hload, hl, hb, hd]
  · intro loan hload hl hb hd hcf
    rcases hcf with hc | hf
    · simp [execute_lend_token, hload, hl, hb, hd, hc]
    · simp [execute_lend_token, hload, hl, hb, hd, hf]
  · intro loan hload hl hb hd hc hf hm
    simp [execute_lend_token, hload, hl, hb, hd, hm,
      List.isEmpty_eq_false_iff_exists_mem.mpr, List.isEmpty_iff, hc, hf]

/-- Witness for C2: in the scenario state, Lend of X called by B (not
the lender) with otherwise invalid inputs fails Unauthorized. -/
theorem C2_witness :
    (execute_lend_token st1 env0 "B" "X" 0 [] [] 0 "").1 =
      .error .Unauthorized :=
  (C2_lend_check_order st1 env0 "B" "X" 0 [] [] 0 "").2.1 loanX rfl
    (by decide)

/-- C3: On success, Lend rewrites exactly the record's duration,
collateral list, daily fee list, max rent days and content identifier,
preserving lender, borrower, asset identifier and start_time (and
is_active), and the returned response carries no transfer instruction. -/
theorem C3_lend_success_frame (st : ContractState) (env : Env)
    (sender asset : Addr) (d : Nat) (c f : List Coin) (m : Nat)
    (cid : String) (loan : Loan) (resp : Response) (st' : ContractState)
    (hload : loadLoan st.loans asset = some loan)
    (h : execute_lend_token st env sender asset d c f m cid = (.ok resp, st')) :
    resp = Response.default ∧
    loadLoan st'.loans asset =
      some { loan with
        duration := d
        collateral_amount := c
        daily_fee_amount := f
        max_rent_days := m
        ipfs_cid := cid } := by
  simp only [execute_lend_token, hload] at h
  split_ifs at h with h1 h2 h3 h4 h5
  · exact absurd (congrArg Prod.fst h) (by simp)
  · exact absurd (congrArg Prod.fst h) (by simp)
  · exact absurd (congrArg Prod.fst h) (by simp)
  · exact absurd (congrArg Prod.fst h) (by simp)
  · exact absurd (congrArg Prod.fst h) (by simp)
  · have hr : resp = Response.default := by
      have := congrArg Prod.fst h
      simp at this
      exact this.symm
    have hs := congrArg Prod.snd h
    simp at hs
    refine ⟨hr, ?_⟩
    rw [← hs]
    simp [loadLoan_saveLoan]

/-- Witness for C3: a successful Lend on the scenario state. -/
theorem C3_witness :
    Response.default = Response.default ∧
    loadLoan (execute_lend_token st1 env0 "A" "X" 7 [⟨"eur", 3⟩]
        [⟨"eur", 2⟩] 4 "cid").2.loans "X" =
      some { loanX with
        duration := 7
        collateral_amount := [⟨"eur", 3⟩]
        daily_fee_amount := [⟨"eur", 2⟩]
        max_rent_days := 4
        ipfs_cid := "cid" } := by
  have h := C3_lend_success_frame st1 env0 "A" "X" 7 [⟨"eur", 3⟩]
    [⟨"eur", 2⟩] 4 "cid" loanX
    ((execute_lend_token st1 env0 "A" "X" 7 [⟨"eur", 3⟩] [⟨"eur", 2⟩]
        4 "cid").1.toOption.getD Response.default)
    (execute_lend_token st1 env0 "A" "X" 7 [⟨"eur", 3⟩] [⟨"eur", 2⟩]
        4 "cid").2 rfl rfl
  exact ⟨rfl, h.2⟩

/-- The scenario loan listed inactive, for the C4 counterexample. -/
def loanXInactive : Loan := { loanX with is_active := false }

def stInactive : ContractState := ⟨[("X", loanXInactive)], some cfgA, none⟩

/-- C4 counterexample: for the stored loan with is_active false, Borrow
called by the stored lender (A) fails with InvalidLoan, not with
Unauthorized — the is_active check runs before the lender check, so the
claim's "regardless of is_active" is false. -/
theorem C4_counterexample :
    (execute_borrow_token stInactive env0 "A" "X").1 =
      .error (.InvalidLoan "Loan is not active") ∧
    (execute_borrow_token stInactive env0 "A" "X").1 ≠
      .error .Unauthorized := by
  refine ⟨rfl, ?_⟩
  have h : (execute_borrow_token stInactive env0 "A" "X").1 =
      .error (.InvalidLoan "Loan is not active") := rfl
  rw [h]
  simp

/-- C4 amended: for every stored Loan whose is_active flag is true,
Borrow called by the stored lender fails Unauthorized regardless of the
record's remaining fields. -/
theorem C4_borrow_by_lender (st : ContractState) (env : Env) (asset : Addr)
    (loan : Loan) (hload : loadLoan st.loans asset = some loan)
    (hact : loan.is_active = true) :
    (execute_borrow_token st env loan.lender asset).1 = .error .Unauthorized := by
  simp [execute_borrow_token, hload, hact]

/-- Witness for C4's amended theorem: the scenario loan, called by A. -/
theorem C4_witness :
    (execute_borrow_token st1 env0 loanX.lender "X").1 = .error .Unauthorized :=
  C4_borrow_by_lender st1 env0 "X" loanX rfl rfl

/-- C5: When Borrow's preconditions hold (record exists, is_active true,
caller not the lender, sentinel borrower), Borrow returns exactly one
wasm execute call on the asset's contract carrying a cw20 Transfer of
the collateral to the lender, and saves the record with borrower set to
the caller and every other field unchanged. -/
theorem C5_borrow_success (st : ContractState) (env : Env)
    (sender asset : Addr) (loan : Loan)
    (hload : loadLoan st.loans asset = some loan)
    (hact : loan.is_active = true)
    (hnl : sender ≠ loan.lender)
    (hsb : loan.borrower = "") :
    execute_borrow_token st env sender asset =
      (.ok ⟨[.wasmExecute loan.asset_address
               (.Transfer loan.lender loan.collateral_amount) []], []⟩,
       { st with loans :=
           saveLoan st.loans asset { loan with borrower := sender } }) := by
  simp [execute_borrow_token, hload, hact, hnl, hsb]

/-- Witness for C5: the scenario borrow by B. -/
theorem C5_witness :
    execute_borrow_token st1 env0 "B" "X" =
      (.ok ⟨[.wasmExecute loanX.asset_address
               (.Transfer loanX.lender loanX.collateral_amount) []], []⟩,
       { st1 with loans :=
           saveLoan st1.loans "X" { loanX with borrower := "B" } }) :=
  C5_borrow_success st1 env0 "B" "X" loanX rfl rfl (by decide) rfl

/-- C6: For a stored Loan with is_active true and caller equal to the
stored borrower, Return fails LoanNotFound exactly when the current time
exceeds start_time plus duration, and succeeds (so in particular does
not fail the expiry check) when it does not. -/
theorem C6_return_expiry (st : ContractState) (env : Env) (asset : Addr)
    (loan : Loan) (hload : loadLoan st.loans asset = some loan)
    (hact : loan.is_active = true) :
    (loan.start_time + loan.duration < env.block.time →
      (execute_return_token st env loan.borrower asset).1 =
        .error .LoanNotFound) ∧
    (env.block.time ≤ loan.start_time + loan.duration →
      (execute_return_token st env loan.borrower asset).1 =
        .ok Response.default) := by
  constructor
  · intro hexp
    simp [execute_return_token, hload, hact, hexp]
  · intro hok
    simp [execute_return_token, hload, hact, Nat.not_lt.mpr hok]

/-- Witness for C6: the scenario loan borrowed by B, returned by B in
time (time 3 against start 0 and duration 10). -/
theorem C6_witness :
    (execute_return_token
        ⟨[("X", { loanX with borrower := "B" })], some cfgA, none⟩
        ⟨⟨0, 3⟩⟩ "B" "X").1 = .ok Response.default :=
  (C6_return_expiry ⟨[("X", { loanX with borrower := "B" })], some cfgA, none⟩
    ⟨⟨0, 3⟩⟩ "X" { loanX with borrower := "B" } rfl rfl).2 (by decide)

/-- C7: On success, Return clears the record's is_active flag, preserves
every other field, and the returned response carries no transfer
instruction. -/
theorem C7_return_success_frame (st : ContractState) (env : Env)
    (sender asset : Addr) (loan : Loan) (resp : Response)
    (st' : ContractState)
    (hload : loadLoan st.loans asset = some loan)
    (h : execute_return_token st env sender asset = (.ok resp, st')) :
    resp = Response.default ∧
    loadLoan st'.loans asset = some { loan with is_active := false } := by
  simp only [execute_return_token, hload] at h
  split_ifs at h with h1 h2 h3
  · exact absurd (congrArg Prod.fst h) (by simp)
  · exact absurd (congrArg Prod.fst h) (by simp)
  · exact absurd (congrArg Prod.fst h) (by simp)
  · have hr : resp = Response.default := by
      have := congrArg Prod.fst h
      simp at this
      exact this.symm
    have hs := congrArg Prod.snd h
    simp at hs
    refine ⟨hr, ?_⟩
    rw [← hs]
    simp [loadLoan_saveLoan]

/-- Witness for C7: the scenario return by B in time. -/
theorem C7_witness :
    Response.default = Response.default ∧
    loadLoan (execute_return_token
        ⟨[("X", { loanX with borrower := "B" })], some cfgA, none⟩
        ⟨⟨0, 3⟩⟩ "B" "X").2.loans "X" =
      some { loanX with borrower := "B", is_active := false } := by
  have h := C7_return_success_frame
    ⟨[("X", { loanX with borrower := "B" })], some cfgA, none⟩
    ⟨⟨0, 3⟩⟩ "B" "X" { loanX with borrower := "B" }
    Response.default
    (execute_return_token
      ⟨[("X", { loanX with borrower := "B" })], some cfgA, none⟩
      ⟨⟨0, 3⟩⟩ "B" "X").2 rfl rfl
  exact ⟨rfl, h.2⟩

/-- C8: WithdrawCollateral called by any identity other than the
Config source fails Unauthorized with no response (hence no transfer
instruction) and untouched state; called by the source it succeeds with
exactly one bank send of the requested amount to the caller and the two
observability attributes. -/
theorem C8_withdraw_auth (st : ContractState) (env : Env) (sender : Addr)
    (amount : List Coin) (config : Config)
    (hc : st.config = some config) :
    (sender ≠ config.source →
      execute_withdraw_collateral st env sender amount =
        (.error .Unauthorized, st)) ∧
    (sender = config.source →
      execute_withdraw_collateral st env sender amount =
        (.ok ⟨[.bankSend sender amount],
              [⟨"action", "withdraw_collateral"⟩, ⟨"recipient", sender⟩]⟩,
         st)) := by
  constructor
  · intro hne
    simp [execute_withdraw_collateral, hc, hne]
  · intro heq
    simp [execute_withdraw_collateral, hc, heq]

/-- Witness for C8: withdraw by B fails, withdraw by the source A
succeeds with the bank send and attributes. -/
theorem C8_witness :
    execute_withdraw_collateral st1 env0 "B" [⟨"usd", 5⟩] =
      (.error .Unauthorized, st1) ∧
    execute_withdraw_collateral st1 env0 "A" [⟨"usd", 5⟩] =
      (.ok ⟨[.bankSend "A" [⟨"usd", 5⟩]],
            [⟨"action", "withdraw_collateral"⟩, ⟨"recipient", "A"⟩]⟩,
       st1) :=
  ⟨(C8_withdraw_auth st1 env0 "B" [⟨"usd", 5⟩] cfgA rfl).1 (by decide),
   (C8_withdraw_auth st1 env0 "A" [⟨"usd", 5⟩] cfgA rfl).2 rfl⟩

def stEmpty : ContractState := ⟨[], none, none⟩

def envH10 : Env := ⟨⟨10, 0⟩⟩

def msgExpired : InstantiateMsg := ⟨"ar", "re", some (.atHeight 5)⟩

/-- C9 counterexample: instantiate with an already-expired expiration
returns an error, yet the handler has already written the
contract-version metadata, so the storage it leaves differs from the
storage before the call — the claim fails for the Instantiate entry
point (only host-level call atomicity would revert the write). -/
theorem C9_counterexample :
    (instantiate stEmpty envH10 "A" msgExpired).1 =
      .error (.Expired (.atHeight 5)) ∧
    (instantiate stEmpty envH10 "A" msgExpired).2 ≠ stEmpty :=
  ⟨rfl, by decide⟩

/-- C9 amended: every execute transition (Lend, Borrow, Return,
WithdrawCollateral) that returns an error leaves persisted storage
exactly as it was before the call; Instantiate is the exception, as it
writes contract-version metadata before validating the expiration. -/
theorem C9_execute_error_frame (st : ContractState) (env : Env)
    (sender : Addr) (msg : ExecuteMsg) (e : ContractError)
    (h : (execute st env sender msg).1 = .error e) :
    (execute st env sender msg).2 = st := by
  cases msg with
  | LendToken a d c f m cid =>
    simp only [execute, execute_lend_token] at h ⊢
    rcases hl : loadLoan st.loans a with _ | loan
    · simp [hl]
    · simp only [hl] at h ⊢
      split_ifs at h ⊢ <;> simp_all
  | BorrowToken a =>
    simp only [execute, execute_borrow_token] at h ⊢
    rcases hl : loadLoan st.loans a with _ | loan
    · simp [hl]
    · simp only [hl] at h ⊢
      split_ifs at h ⊢ <;> simp_all
  | ReturnToken a =>
    simp only [execute, execute_return_token] at h ⊢
    rcases hl : loadLoan st.loans a with _ | loan
    · simp [hl]
    · simp only [hl] at h ⊢
      split_ifs at h ⊢ <;> simp_all
  | WithdrawCollateral amount =>
    simp only [execute, execute_withdraw_collateral] at h ⊢
    rcases hc : st.config with _ | config
    · simp [hc]
    · simp only [hc] at h ⊢
      split_ifs at h ⊢
      simp_all

/-- Witness for C9's amended theorem: the failing withdraw by B leaves
the scenario state unchanged. -/
theorem C9_witness :
    (execute st1 env0 "B" (.WithdrawCollateral [])).2 = st1 :=
  C9_execute_error_frame st1 env0 "B" (.WithdrawCollateral [])
    .Unauthorized rfl

/-- C10: No execute transition turns a stored record's is_active flag
from false to true or changes its start_time: every record stored after
a transition comes from a record stored before it with the same
start_time and with is_active only ever cleared, never set. -/
theorem C10_no_reactivation (st : ContractState) (env : Env) (sender : Addr)
    (msg : ExecuteMsg) (k : Addr) (l' : Loan)
    (h : loadLoan (execute st env sender msg).2.loans k = some l') :
    ∃ l, loadLoan st.loans k = some l ∧ l'.start_time = l.start_time ∧
      (l'.is_active = true → l.is_active = true) := by
  cases msg with
  | LendToken a d c f m cid =>
    simp only [execute, execute_lend_token] at h
    rcases hl : loadLoan st.loans a with _ | loan <;> simp only [hl] at h
    · exact ⟨l', h, rfl, fun x => x⟩
    · split_ifs at h with h1 h2 h3 h4 h5
      · exact ⟨l', h, rfl, fun x => x⟩
      · exact ⟨l', h, rfl, fun x => x⟩
      · exact ⟨l', h, rfl, fun x => x⟩
      · exact ⟨l', h, rfl, fun x => x⟩
      · exact ⟨l', h, rfl, fun x => x⟩
      · dsimp only at h
        rw [loadLoan_saveLoan] at h
        by_cases hak : a = k
        · rw [if_pos hak] at h
          rw [Option.some_inj] at h
          exact ⟨loan, hak ▸ hl, by rw [← h], by rw [← h]; exact fun x => x⟩
        · rw [if_neg hak] at h
          exact ⟨l', h, rfl, fun x => x⟩
  | BorrowToken a =>
    simp only [execute, execute_borrow_token] at h
    rcases hl : loadLoan st.loans a with _ | loan <;> simp only [hl] at h
    · exact ⟨l', h, rfl, fun x => x⟩
    · split_ifs at h with h1 h2 h3
      · exact ⟨l', h, rfl, fun x => x⟩
      · exact ⟨l', h, rfl, fun x => x⟩
      · exact ⟨l', h, rfl, fun x => x⟩
      · dsimp only at h
        rw [loadLoan_saveLoan] at h
        by_cases hak : a = k
        · rw [if_pos hak] at h
          rw [Option.some_inj] at h
          exact ⟨loan, hak ▸ hl, by rw [← h], by rw [← h]; exact fun x => x⟩
        · rw [if_neg hak] at h
          exact ⟨l', h, rfl, fun x => x⟩
  | ReturnToken a =>
    simp only [execute, execute_return_token] at h
    rcases hl : loadLoan st.loans a with _ | loan <;> simp only [hl] at h
    · exact ⟨l', h, rfl, fun x => x⟩
    · split_ifs at h with h1 h2 h3
      · exact ⟨l', h, rfl, fun x => x⟩
      · exact ⟨l', h, rfl, fun x => x⟩
      · exact ⟨l', h, rfl, fun x => x⟩
      · dsimp only at h
        rw [loadLoan_saveLoan] at h
        by_cases hak : a = k
        · rw [if_pos hak] at h
          rw [Option.some_inj] at h
          refine ⟨loan, hak ▸ hl, by rw [← h], ?_⟩
          rw [← h]
          intro hfalse
          exact absurd hfalse (by simp)
        · rw [if_neg hak] at h
          exact ⟨l', h, rfl, fun x => x⟩
  | WithdrawCollateral amount =>
    simp only [execute, execute_withdraw_collateral] at h
    rcases hc : st.config with _ | config <;> simp only [hc] at h
    · exact ⟨l', h, rfl, fun x => x⟩
    · split_ifs at h with h1
      · exact ⟨l', h, rfl, fun x => x⟩
      · exact ⟨l', h, rfl, fun x => x⟩

/-- Witness for C10: the record stored after the scenario borrow by B
traces back to the prior record with unchanged start_time and flag. -/
theorem C10_witness :
    ∃ l, loadLoan st1.loans "X" = some l ∧
      ({ loanX with borrower := "B" } : Loan).start_time = l.start_time ∧
      (({ loanX with borrower := "B" } : Loan).is_active = true →
        l.is_active = true) :=
  C10_no_reactivation st1 env0 "B" (.BorrowToken "X") "X"
    { loanX with borrower := "B" } rfl

end Lending
